import Mathlib

/-!
Shallow embedding of the store backend's authentication workflow
(`controllers/auth.controller.js`), authorization guard
(`middleware/auth.middleware.js`) and order transaction coordinator
(`controllers/order.controller.js`, stored here in
`src/controllers/address.controller.js`), together with theorems settling
the specification claims about them.

Conventions of the embedding:
* SQL tables become Lean lists of rows; `SELECT ... WHERE c = ?` with a
  single-row use becomes `List.find?`, bulk `UPDATE`s become `List.map`
  guarded by the `WHERE` condition, `DELETE` becomes `List.filter`.
* JavaScript truthiness on request-body string fields (absent, `null` or
  `""` are falsy) is the `truthy` predicate on `Option String`.
* `bcrypt` is modelled by an injective hash function `bcryptHash`;
  `bcrypt.compare(p, h)` is `bcryptCheck p h` (false when the stored hash
  is NULL, i.e. `none`).
* JWTs (`jsonwebtoken`) are modelled as records carrying exactly the
  claims the code signs, plus `sigOk : Bool` standing for "verifies
  against the server secret"; `exp` is issuance time + 3600 s (`1h`).
* `uuidv4()` draws from a deterministic counter supply in the state.
* Wall-clock time is an explicit `now : Nat` parameter (seconds).
* MySQL transactions are modelled by working copies of the state: the
  connection's writes act on a copy, `commit` installs it, `rollback`
  (or an error before commit) returns the original state.
-/

/-- JS truthiness of an optional request-body string: `undefined`, `null`
and the empty string are falsy, every other string is truthy. -/
def truthy : Option String → Bool
  | none => false
  | some s => s ≠ ""

/-- Model of the bcrypt hash of a password (injective, executable). -/
def bcryptHash (p : String) : String := "bcrypt$" ++ p

/-- Model of `bcrypt.compare(p, stored)`: true iff the stored hash is the
hash of `p`. A NULL stored hash (OTP-only account) never matches. -/
def bcryptCheck (p : String) (stored : Option String) : Bool :=
  stored == some (bcryptHash p)

/-- A row of the `users` table, with the columns the core reads/writes. -/
structure User where
  id : Nat
  uid : String
  fullName : String
  email : String
  phone : String
  /-- bcrypt hash; `none` models SQL NULL (OTP-only accounts, and rows
  inserted by `register`, which stores no password at all). -/
  password : Option String
  role : String
  accountStatus : String
  loginAttempts : Nat
  lastLogin : Option Nat
  resetToken : Option String
  resetTokenExpires : Option Nat
deriving Repr, DecidableEq

/-- A row of the `refresh_tokens` table. The code writes two distinct
revocation columns: every read and rotation/logout write uses
`is_revoked`, while `resetPassword` writes a column named `revoked`;
both appear here so that each query can be embedded as written. -/
structure RefreshRow where
  userId : Nat
  token : String
  expiresAt : Nat
  is_revoked : Bool
  revoked : Bool
deriving Repr, DecidableEq

/-- A signed access token (JWT) as produced by `generateToken`: the
payload fields `jwt.sign` embeds, the expiry, and `sigOk` meaning the
signature verifies against the server secret. -/
structure Jwt where
  userId : Nat
  email : String
  fullName : String
  role : String
  exp : Nat
  sigOk : Bool
deriving Repr, DecidableEq

/-- Persistent state of the auth subsystem: the `users` and
`refresh_tokens` tables plus deterministic id/uuid supplies. -/
structure DB where
  users : List User
  tokens : List RefreshRow
  nextUserId : Nat
  nextUuid : Nat
deriving Repr, DecidableEq

/-- Deterministic stand-in for `uuidv4()`. -/
def genUuid (n : Nat) : String := "uuid-" ++ toString n

/-- Result of an HTTP-level operation: success payload, or an error with
the exact message string and HTTP status code the code passes to
`AppError`. -/
inductive Outcome (α : Type) where
  | ok (val : α)
  | err (msg : String) (status : Nat)
deriving Repr, DecidableEq

/-- Whether an outcome is a success. -/
def Outcome.isOk {α : Type} : Outcome α → Bool
  | .ok _ => true
  | .err _ _ => false

/-- The public user view returned by the auth endpoints (no password
column exists in this shape at all). -/
structure UserView where
  id : Nat
  uid : String
  fullName : String
  email : String
  phoneNumber : String
  role : String
deriving Repr, DecidableEq

/-- Success payload of `login` / `register` / `verifyOTP`. -/
structure LoginData where
  user : UserView
  token : Jwt
  refreshToken : Option String
deriving Repr, DecidableEq

/-- `generateToken(user)`: signs `{userId, email, fullName, role}` with
expiry `JWT_EXPIRES_IN = '1h'`. -/
def generateToken (u : User) (now : Nat) : Jwt :=
  { userId := u.id, email := u.email, fullName := u.fullName,
    role := u.role, exp := now + 3600, sigOk := true }

/-- `generateRefreshToken(userId)`: draws a uuid and inserts a row into
`refresh_tokens` with a 30-day expiry (retry-on-lock-timeout loop is
invisible in this sequential model). Returns the token and new state. -/
def generateRefreshToken (userId : Nat) (now : Nat) (s : DB) : String × DB :=
  let tok := genUuid s.nextUuid
  (tok,
    { s with
      tokens := s.tokens ++
        [{ userId := userId, token := tok, expiresAt := now + 30 * 86400,
           is_revoked := false, revoked := false }],
      nextUuid := s.nextUuid + 1 })

/-- Request body of `POST /api/auth/login`. -/
structure LoginReq where
  firebase_uid : Option String
  phone_number : Option String
  password : Option String
deriving Repr, DecidableEq

/-- Shared view construction for login-family responses. -/
def userView (u : User) : UserView :=
  { id := u.id, uid := u.uid, fullName := u.fullName, email := u.email,
    phoneNumber := u.phone, role := u.role }

/-- Error message used for non-active accounts. -/
def suspendedMsg : String :=
  "Your account has been suspended or deactivated. Please contact support."

/-- Error message returned when the lockout threshold is reached. -/
def lockedMsg : String :=
  "Too many failed login attempts. Your account has been locked for security reasons. Please contact support."

/-- `exports.login`: the Firebase branch (taken when both `firebase_uid`
and `phone_number` are truthy) and the password branch, embedded from
`auth.controller.js`. `bc` is the `bcrypt.compare` primitive (only the
password branch consults it). -/
def login (bc : String → Option String → Bool) (body : LoginReq) (now : Nat)
    (s : DB) : Outcome LoginData × DB :=
  if truthy body.firebase_uid && truthy body.phone_number then
    let fuid := body.firebase_uid.getD ""
    let phone := body.phone_number.getD ""
    match s.users.find? (fun u => u.phone == phone) with
    | none => (Outcome.err "User not found" 404, s)
    | some user =>
      if user.accountStatus ≠ "active" then (Outcome.err suspendedMsg 401, s)
      else
        let needUpd : Bool := user.uid == "" || user.uid != fuid
        let s1 := if needUpd then
            { s with users := s.users.map (fun v =>
                if v.id = user.id then { v with uid := fuid } else v) }
          else s
        let user1 := if needUpd then { user with uid := fuid } else user
        let s2 := { s1 with users := s1.users.map (fun v =>
            if v.id = user.id then
              { v with loginAttempts := 0, lastLogin := some now } else v) }
        let tok := generateToken user1 now
        let (rt, s3) := generateRefreshToken user.id now s2
        (Outcome.ok { user := userView user1, token := tok,
                      refreshToken := some rt }, s3)
  else if !(truthy body.phone_number && truthy body.password) then
    (Outcome.err "Phone number and password are required" 400, s)
  else
    let phone := body.phone_number.getD ""
    let pw := body.password.getD ""
    match s.users.find? (fun u => u.phone == phone) with
    | none => (Outcome.err "Invalid credentials" 401, s)
    | some user =>
      if user.accountStatus ≠ "active" then (Outcome.err suspendedMsg 401, s)
      else if bc pw user.password then
        let s1 := { s with users := s.users.map (fun v =>
            if v.id = user.id then
              { v with loginAttempts := 0, lastLogin := some now } else v) }
        let tok := generateToken user now
        let (rt, s2) := generateRefreshToken user.id now s1
        (Outcome.ok { user := userView user, token := tok,
                      refreshToken := some rt }, s2)
      else
        let s1 := { s with users := s.users.map (fun v =>
            if v.id = user.id then
              { v with loginAttempts := v.loginAttempts + 1 } else v) }
        if user.loginAttempts ≥ 4 then
          let s2 := { s1 with users := s1.users.map (fun v =>
              if v.id = user.id then
                { v with accountStatus := "inactive" } else v) }
          (Outcome.err lockedMsg 401, s2)
        else (Outcome.err "Invalid credentials" 401, s1)

/-- Success payload of `refreshToken`. -/
structure RefreshData where
  token : Jwt
  refreshToken : String
deriving Repr, DecidableEq

/-- `exports.refreshToken`: looks the presented token up among usable
rows (`expires_at > NOW() AND is_revoked = 0`), loads its user, issues a
new pair and then revokes every row carrying the presented token. -/
def refresh (rt : Option String) (now : Nat) (s : DB) :
    Outcome RefreshData × DB :=
  if !(truthy rt) then (Outcome.err "Refresh token is required" 400, s)
  else
    let rtv := rt.getD ""
    match s.tokens.find? (fun r =>
        r.token == rtv && decide (now < r.expiresAt) && !r.is_revoked) with
    | none => (Outcome.err "Invalid or expired refresh token" 401, s)
    | some row =>
      match s.users.find? (fun u => u.id == row.userId) with
      | none => (Outcome.err "User not found" 404, s)
      | some user =>
        let tok := generateToken user now
        let (newRt, s1) := generateRefreshToken user.id now s
        let s2 := { s1 with tokens := s1.tokens.map (fun r =>
            if r.token = rtv then { r with is_revoked := true } else r) }
        (Outcome.ok { token := tok, refreshToken := newRt }, s2)

/-- `exports.logout`: revokes the given token when present; always
succeeds. -/
def logout (rt : Option String) (s : DB) : Outcome Unit × DB :=
  if truthy rt then
    let rtv := rt.getD ""
    (Outcome.ok (), { s with tokens := s.tokens.map (fun r =>
        if r.token = rtv then { r with is_revoked := true } else r) })
  else (Outcome.ok (), s)

/-- The reset-token expiry guard `reset_token_expires > NOW()` (false on
a NULL expiry, as in SQL). -/
def resetTokenLive (u : User) (now : Nat) : Bool :=
  match u.resetTokenExpires with
  | some e => decide (now < e)
  | none => false

/-- `exports.resetPassword`: validates, finds the user by unexpired reset
token, replaces the hash, clears the reset columns, and then runs
`UPDATE refresh_tokens SET revoked = 1 WHERE user_id = ?` — note this
writes the `revoked` column, not the `is_revoked` column that
`refreshToken` reads. -/
def resetPassword (tok pw : Option String) (now : Nat) (s : DB) :
    Outcome Unit × DB :=
  if !(truthy tok && truthy pw) then
    (Outcome.err "Token and new password are required" 400, s)
  else
    let tokv := tok.getD ""
    let pwv := pw.getD ""
    if pwv.length < 8 then
      (Outcome.err "Password must be at least 8 characters long" 400, s)
    else
      match s.users.find? (fun u =>
          u.resetToken == some tokv && resetTokenLive u now) with
      | none => (Outcome.err "Invalid or expired token" 400, s)
      | some user =>
        let s1 := { s with users := s.users.map (fun (v : User) =>
            if v.id = user.id then
              { v with password := some (bcryptHash pwv),
                       resetToken := none, resetTokenExpires := none }
            else v) }
        let s2 := { s1 with tokens := s1.tokens.map (fun (r : RefreshRow) =>
            if r.userId = user.id then { r with revoked := true } else r) }
        (Outcome.ok (), s2)

/-- Characters allowed by the `[^\s@]` classes of the email regex. -/
def noWsOrAt (l : List Char) : Bool :=
  l.all (fun c => !c.isWhitespace && c ≠ '@')

/-- Split a character list at the first occurrence of `c`: the part
before it, and (when `c` occurs) the part after it. -/
def splitAtChar (c : Char) : List Char → List Char × Option (List Char)
  | [] => ([], none)
  | x :: xs =>
    if x = c then ([], some xs)
    else
      let (pre, rest) := splitAtChar c xs
      (x :: pre, rest)

/-- The email check `/^[^\s@]+@[^\s@]+\.[^\s@]+$/` of `verifyOTP`:
exactly one `@` (both parts free of whitespace and `@`), a nonempty
local part, and a domain part containing a dot that is neither its
first nor its last character. -/
def emailOk (e : String) : Bool :=
  match splitAtChar '@' e.toList with
  | (loc, some dom) =>
    !loc.isEmpty && noWsOrAt loc && !dom.isEmpty && noWsOrAt dom &&
      (dom.drop 1).dropLast.contains '.'
  | (_, none) => false

/-- Request body of `POST /api/auth/register`. The `password` field can
be supplied by a caller but `register` never reads it: the code
destructures only `full_name`, `email`, `phone_number`, `uid`. -/
structure RegisterReq where
  full_name : Option String
  email : Option String
  phone_number : Option String
  uid : Option String
  password : Option String
deriving Repr, DecidableEq

/-- `exports.register`: requires `full_name`, `email`, `phone_number`
and `uid` (no password is accepted or stored); 409 when the email or
phone is already used; inserts the user inside a transaction, commits,
then issues the refresh token outside the transaction. The inserted row
carries no password; role and account status take their defaults. -/
def register (body : RegisterReq) (now : Nat) (s : DB) :
    Outcome LoginData × DB :=
  if !(truthy body.full_name && truthy body.email &&
       truthy body.phone_number && truthy body.uid) then
    (Outcome.err "All fields are required" 400, s)
  else
    let email := body.email.getD ""
    let phone := body.phone_number.getD ""
    if (s.users.filter (fun u => u.email == email || u.phone == phone)) ≠ [] then
      (Outcome.err "User with this email or phone number already exists" 409, s)
    else
      let newUser : User :=
        { id := s.nextUserId, uid := body.uid.getD "",
          fullName := body.full_name.getD "", email := email, phone := phone,
          password := none, role := "user", accountStatus := "active",
          loginAttempts := 0, lastLogin := none, resetToken := none,
          resetTokenExpires := none }
      let s1 := { s with users := s.users ++ [newUser],
                         nextUserId := s.nextUserId + 1 }
      let tok := generateToken newUser now
      let (rt, s2) := generateRefreshToken newUser.id now s1
      (Outcome.ok { user := userView newUser, token := tok,
                    refreshToken := some rt }, s2)

/-- Tail of `verifyOTP` shared by the new-user and existing-user paths:
access-token issuance happens before the commit (a failure there rolls
the transaction back to `orig`), the commit installs the working copy
`wc`, and refresh-token issuance runs after the commit (a failure there
leaves `wc` in place — the cleanup `rollbackTransaction` is skipped
because the code nulls the connection at commit time). -/
def finishVerify (tokFail rtFail : Bool) (user : User) (now : Nat)
    (orig wc : DB) : Outcome LoginData × DB :=
  if tokFail then (Outcome.err "Internal server error" 500, orig)
  else
    let tok := generateToken user now
    if rtFail then (Outcome.err "Internal server error" 500, wc)
    else
      let (rt, s1) := generateRefreshToken user.id now wc
      let s2 := { s1 with users := s1.users.map (fun (v : User) =>
          if v.id = user.id then
            { v with loginAttempts := 0, lastLogin := some now } else v) }
      (Outcome.ok { user := userView user, token := tok,
                    refreshToken := some rt }, s2)

/-- `exports.verifyOTP`: `otpStatus` is the status string returned by
the Twilio gateway for this (phone, code) pair; `tokFail` and `rtFail`
inject a failure into access-token signing and refresh-token insertion
respectively, to express the atomicity claims. -/
def verifyOTP (otpStatus : String) (tokFail rtFail : Bool)
    (phone_number code full_name email : Option String) (now : Nat)
    (s : DB) : Outcome LoginData × DB :=
  if !(truthy phone_number && truthy code) then
    (Outcome.err "Phone number and code are required" 400, s)
  else if otpStatus ≠ "approved" then
    (Outcome.err "Invalid OTP code" 400, s)
  else
    let phone := phone_number.getD ""
    match s.users.find? (fun u => u.phone == phone) with
    | none =>
      if !(truthy full_name && truthy email) then
        (Outcome.err "Full name and email are required for registration" 400, s)
      else if !emailOk (email.getD "") then
        (Outcome.err "Invalid email format" 400, s)
      else
        let uid := genUuid s.nextUuid
        let newUser : User :=
          { id := s.nextUserId, uid := uid, fullName := full_name.getD "",
            email := email.getD "", phone := phone, password := none,
            role := "user", accountStatus := "active", loginAttempts := 0,
            lastLogin := none, resetToken := none, resetTokenExpires := none }
        let wc := { s with users := s.users ++ [newUser],
                           nextUserId := s.nextUserId + 1,
                           nextUuid := s.nextUuid + 1 }
        finishVerify tokFail rtFail newUser now s wc
    | some u => finishVerify tokFail rtFail u now s s

/-- Decision of the `authenticate` middleware. -/
inductive AuthDecision where
  | granted (user : User)
  | denied (msg : String) (status : Nat)
deriving Repr, DecidableEq

/-- `exports.authenticate` (auth.middleware.js): verifies the bearer
token (`none` models an absent/unparsable Authorization header), then
looks the token's user up in the `users` table and requires the account
to exist and be active before granting access. -/
def authenticate (tok : Option Jwt) (now : Nat) (users : List User) :
    AuthDecision :=
  match tok with
  | none => .denied "You are not logged in. Please log in to get access." 401
  | some t =>
    if !t.sigOk then .denied "Invalid token. Please log in again." 401
    else if t.exp ≤ now then
      .denied "Your token has expired. Please log in again." 401
    else
      match users.find? (fun u => u.id == t.userId) with
      | none =>
        .denied "The user belonging to this token no longer exists." 401
      | some u =>
        if u.accountStatus ≠ "active" then .denied suspendedMsg 401
        else .granted u

/-- A row of the `orders` table. -/
structure Order where
  orderId : Nat
  userId : Nat
  address : String
  phoneNumber : String
  totalAmount : Int
  status : String
deriving Repr, DecidableEq

/-- A row of the `order_items` table (immutable product snapshot). -/
structure OrderItem where
  id : Nat
  orderId : Nat
  productId : Nat
  productName : String
  productPrice : Int
  quantity : Int
  discountAmount : Int
  imageUrl : String
deriving Repr, DecidableEq

/-- A row of the `cart_items` table. -/
structure CartItem where
  cartItemId : Nat
  userId : Nat
  productId : Nat
  quantity : Int
deriving Repr, DecidableEq

/-- Persistent state of the order subsystem. -/
structure OrderDB where
  orders : List Order
  orderItems : List OrderItem
  cartItems : List CartItem
  nextOrderId : Nat
  nextItemId : Nat
deriving Repr, DecidableEq

/-- One element of the `items` array in the `createOrder` request. -/
structure OrderItemReq where
  productId : Nat
  productName : String
  price : Int
  quantity : Int
  discountAmount : Option Int
  imageUrl : String
deriving Repr, DecidableEq

/-- Request body of `POST /api/orders`. -/
structure OrderReq where
  items : List OrderItemReq
  totalAmount : Int
  address : String
  phoneNumber : String
deriving Repr, DecidableEq

/-- The per-item insert loop of `createOrder`, acting on the
transaction's working copy; step `k` counts the statements executed so
far, and `failAt = some k` makes the k-th statement throw (`none`). -/
def insertOrderItems (failAt : Option Nat) (oid : Nat) :
    List OrderItemReq → Nat → OrderDB → Option OrderDB
  | [], _, wc => some wc
  | it :: rest, k, wc =>
    if failAt = some k then none
    else insertOrderItems failAt oid rest (k + 1)
      { wc with
        orderItems := wc.orderItems ++
          [{ id := wc.nextItemId, orderId := oid, productId := it.productId,
             productName := it.productName, productPrice := it.price,
             quantity := it.quantity,
             discountAmount := it.discountAmount.getD 0,
             imageUrl := it.imageUrl }],
        nextItemId := wc.nextItemId + 1 }

/-- `exports.createOrder` (order controller): inside one transaction it
inserts the order row with status `pending` and the caller-supplied
`totalAmount`, inserts one `order_items` row per request item, deletes
every `cart_items` row of the user, and commits; any failure before or
at the commit (`failAt` gives the failing statement index: 0 the order
insert, 1..N the item inserts, N+1 the cart delete, N+2 the commit)
triggers the catch-block rollback, leaving the database unchanged.
Returns the new order id on success. -/
def createOrder (failAt : Option Nat) (userId : Nat) (req : OrderReq)
    (db : OrderDB) : Outcome Nat × OrderDB :=
  if failAt = some 0 then (Outcome.err "Error creating order" 500, db)
  else
    let oid := db.nextOrderId
    let wc1 := { db with
      orders := db.orders ++
        [{ orderId := oid, userId := userId, address := req.address,
           phoneNumber := req.phoneNumber, totalAmount := req.totalAmount,
           status := "pending" }],
      nextOrderId := oid + 1 }
    match insertOrderItems failAt oid req.items 1 wc1 with
    | none => (Outcome.err "Error creating order" 500, db)
    | some wc2 =>
      let delStep := req.items.length + 1
      if failAt = some delStep then (Outcome.err "Error creating order" 500, db)
      else
        let wc3 := { wc2 with
          cartItems := wc2.cartItems.filter (fun c => c.userId != userId) }
        if failAt = some (delStep + 1) then
          (Outcome.err "Error creating order" 500, db)
        else (Outcome.ok oid, wc3)

/-- The status whitelist of `updateOrderStatus`. -/
def validStatuses : List String :=
  ["pending", "processing", "shipped", "delivered", "cancelled"]

/-- `exports.updateOrderStatus`: rejects a status outside the whitelist
(400, store unchanged). Otherwise the `UPDATE` executes and persists
(the pooled query autocommits) — but the handler then runs
`const [result] = await database.query(...)`: `database.query` already
returns the unwrapped result, an `UPDATE` yields a non-iterable
`ResultSetHeader`, and array-destructuring it throws. The TypeError
lands in the catch block, so the caller always receives the 500
`Error updating order status`; the success and 404 (`affectedRows`)
responses are unreachable. -/
def updateOrderStatus (id : Nat) (status : String) (db : OrderDB) :
    Outcome Unit × OrderDB :=
  if status ∉ validStatuses then (Outcome.err "Invalid order status" 400, db)
  else
    (Outcome.err "Error updating order status" 500,
     { db with orders := db.orders.map (fun (o : Order) =>
         if o.orderId = id then { o with status := status } else o) })

/-- `exports.cancelOrder`: the handler runs
`const [orders] = await database.query('SELECT status ...')` on the
already-unwrapped row array, so `orders` is the FIRST ROW object (or
`undefined` when no row matches). The subsequent access then throws on
every input — `orders.length` on `undefined` when there is no match,
otherwise `order.status` on `orders[0] = undefined` — before any status
check and before any write. The operation therefore always returns the
catch block's 500 `Error cancelling order`, leaving the store
unchanged; the 404, the transition-rule 400 and the cancel write are
unreachable. -/
def cancelOrder (id userId : Nat) (db : OrderDB) : Outcome Unit × OrderDB :=
  (Outcome.err "Error cancelling order" 500, db)

/-! ### Concrete fixtures used by witnesses and counterexamples -/

/-- A generic active user row. -/
def baseUser : User :=
  { id := 1, uid := "fb1", fullName := "Test User", email := "t@example.com",
    phone := "+212600000001", password := none, role := "user",
    accountStatus := "active", loginAttempts := 0, lastLogin := none,
    resetToken := none, resetTokenExpires := none }

/-- A live (unexpired, unrevoked) refresh-token row for user 1. -/
def rowRt1 : RefreshRow :=
  { userId := 1, token := "rt1", expiresAt := 1000, is_revoked := false,
    revoked := false }

/-- User 1 with a password hash and a live password-reset token. -/
def userTok : User :=
  { baseUser with
    password := some (bcryptHash "goodpass"),
    resetToken := some "tok12345",
    resetTokenExpires := some 100 }

/-- State with one password-and-reset-token user and one live refresh
token. -/
def sTok : DB :=
  { users := [userTok], tokens := [rowRt1], nextUserId := 2, nextUuid := 0 }

/-- An active user with a password, for the lockout witness. -/
def uC4 : User := { baseUser with password := some (bcryptHash "goodpass") }

/-- One-item order request whose `totalAmount` (999) disagrees with the
item sum (10 × 1, no discount). -/
def reqC7 : OrderReq :=
  { items := [{ productId := 5, productName := "P", price := 10,
                quantity := 1, discountAmount := some 0, imageUrl := "u" }],
    totalAmount := 999, address := "addr", phoneNumber := "ph" }

/-- Order store with an empty catalog side and one cart row for user 7. -/
def dbC1 : OrderDB :=
  { orders := [], orderItems := [],
    cartItems := [{ cartItemId := 1, userId := 7, productId := 5,
                    quantity := 1 }],
    nextOrderId := 1, nextItemId := 1 }

/-- A delivered order owned by user 7. -/
def ordDel : Order :=
  { orderId := 1, userId := 7, address := "a", phoneNumber := "p",
    totalAmount := 5, status := "delivered" }

/-- Order store holding a single order already `delivered`. -/
def dbC8 : OrderDB :=
  { orders := [ordDel], orderItems := [], cartItems := [],
    nextOrderId := 2, nextItemId := 1 }

/-- A pending order owned by user 7. -/
def ordPend : Order :=
  { orderId := 1, userId := 7, address := "a", phoneNumber := "p",
    totalAmount := 5, status := "pending" }

/-- Order store holding that single pending order. -/
def dbPend : OrderDB :=
  { orders := [ordPend], orderItems := [], cartItems := [],
    nextOrderId := 2, nextItemId := 1 }

/-- A signature-valid access token for user 1, expiring at t = 100. -/
def jwC9 : Jwt :=
  { userId := 1, email := "t@example.com", fullName := "Test User",
    role := "user", exp := 100, sigOk := true }

/-- `iterateLogin body now k s`: the state after `k` successive calls of
`login` with the same request body. -/
def iterateLogin (body : LoginReq) (now : Nat) : Nat → DB → DB
  | 0, s => s
  | k + 1, s => (login bcryptCheck body now (iterateLogin body now k s)).snd

/-- The password-login request body `{ phone_number, password }`. -/
def loginPwBody (phone pw : String) : LoginReq :=
  { firebase_uid := none, phone_number := some phone, password := some pw }

/-- The user row `register` inserts for a given request body and state
(defaults: no password, role `user`, status `active`). -/
def registeredUser (body : RegisterReq) (s : DB) : User :=
  { id := s.nextUserId, uid := body.uid.getD "",
    fullName := body.full_name.getD "", email := body.email.getD "",
    phone := body.phone_number.getD "", password := none, role := "user",
    accountStatus := "active", loginAttempts := 0, lastLogin := none,
    resetToken := none, resetTokenExpires := none }

/-- The store after a successful `register`: the new user row plus the
refresh-token row issued after the commit. -/
def registeredState (body : RegisterReq) (s : DB) (now : Nat) : DB :=
  { users := s.users ++ [registeredUser body s],
    tokens := s.tokens ++
      [{ userId := s.nextUserId, token := genUuid s.nextUuid,
         expiresAt := now + 30 * 86400, is_revoked := false,
         revoked := false }],
    nextUserId := s.nextUserId + 1, nextUuid := s.nextUuid + 1 }

/-- Concrete register body for the C5 witness. -/
def bodyC5 : RegisterReq :=
  { full_name := some "Ali", email := some "ali@x.com",
    phone_number := some "+212600000009", uid := some "fb9",
    password := none }

/-- The empty store. -/
def sEmpty : DB := ⟨[], [], 1, 0⟩

/-! ### Helper lemmas -/

/-- The modelled bcrypt hash is injective. -/
theorem bcryptHash_inj {a b : String} (h : bcryptHash a = bcryptHash b) :
    a = b := by
  have hd := congrArg String.data h
  simp only [bcryptHash, String.data_append] at hd
  exact String.ext (List.append_cancel_left hd)

/-- `find?` skips an initial segment on which the predicate is everywhere false. -/
theorem find?_append_of_none {α : Type} {p : α → Bool} {l₁ l₂ : List α}
    (h : l₁.find? p = none) : (l₁ ++ l₂).find? p = l₂.find? p := by
  simp [List.find?_append, h]

/-! ### Claim theorems -/

/-- C2: the claim says `resetPassword` revokes all refresh tokens of the
user, so a later `refresh` with a previously issued token fails with
AuthError. The code instead runs
`UPDATE refresh_tokens SET revoked = 1 WHERE user_id = ?`, writing a
column that no validity check ever reads (`refreshToken` filters on
`is_revoked = 0`, and every other revocation write uses `is_revoked`),
contradicting its own comment "Revoke all refresh tokens for this
user". Concretely: after a successful `resetPassword`, the user's
previously issued refresh token still refreshes successfully, and its
`is_revoked` column is untouched. -/
theorem c2_resetPassword_does_not_revoke :
    (resetPassword (some "tok12345") (some "newpassword") 50 sTok).fst
      = Outcome.ok () ∧
    ((resetPassword (some "tok12345") (some "newpassword") 50 sTok).snd.tokens.map
        RefreshRow.is_revoked = [false]) ∧
    (refresh (some "rt1") 60
        (resetPassword (some "tok12345") (some "newpassword") 50 sTok).snd).fst.isOk
      = true := by decide

/-- On a successful `refresh` of token `rt`, every row of the resulting
`refresh_tokens` table carrying `rt` has been revoked. -/
theorem refresh_ok_revokes (rt : String) (now : Nat) (s s2 : DB)
    (d : RefreshData) (h : refresh (some rt) now s = (Outcome.ok d, s2)) :
    ∀ r ∈ s2.tokens, r.token = rt → r.is_revoked = true := by
  unfold refresh at h
  by_cases hrt : rt = ""
  · subst hrt; simp [truthy] at h
  · rw [if_neg (by simp [truthy, hrt])] at h
    simp only [Option.getD_some] at h
    split at h
    · simp at h
    · split at h
      · simp at h
      · simp only [generateRefreshToken, Prod.mk.injEq] at h
        obtain ⟨-, hs⟩ := h
        subst hs
        intro r hr hrtok
        simp only [List.mem_map] at hr
        obtain ⟨r0, hr0, rfl⟩ := hr
        by_cases hc : r0.token = rt
        · simp [hc]
        · simp only [if_neg hc] at hrtok ⊢
          exact absurd hrtok hc

/-- C3: refresh rotation — once `refresh(rt)` succeeds, a second call
presenting the same token `rt` (at any later time) fails with the
AuthError `Invalid or expired refresh token` (401): the presented token
was revoked, so it can never be replayed. -/
theorem c3_refresh_rotation (rt : String) (now now2 : Nat) (s s2 : DB)
    (d : RefreshData) (h : refresh (some rt) now s = (Outcome.ok d, s2)) :
    (refresh (some rt) now2 s2).fst
      = Outcome.err "Invalid or expired refresh token" 401 := by
  have hrev := refresh_ok_revokes rt now s s2 d h
  have hrt : rt ≠ "" := by
    intro hrt
    subst hrt
    simp [refresh, truthy] at h
  have hnone : s2.tokens.find? (fun r =>
      r.token == rt && decide (now2 < r.expiresAt) && !r.is_revoked) = none := by
    rw [List.find?_eq_none]
    intro r hr
    by_cases hc : r.token = rt
    · have := hrev r hr hc
      simp [this]
    · simp [hc]
  unfold refresh
  rw [if_neg (by simp [truthy, hrt])]
  simp only [Option.getD_some, hnone]

/-- Witness for C3 at a concrete state: a successful refresh of `rt1`
followed by a replay of `rt1`. -/
theorem c3_refresh_rotation_witness :
    (refresh (some "rt1") 60 (refresh (some "rt1") 50 sTok).snd).fst
      = Outcome.err "Invalid or expired refresh token" 401 :=
  c3_refresh_rotation "rt1" 50 60 sTok _ _ rfl

/-- C9 fails on the code: the guard (`authenticate`) consults the
persisted user row, so the decision for one and the same
signature-valid, unexpired token differs between two store states that
differ only in the user's `account_status` — state does matter, and
deactivation does cut access mid-lifetime. -/
theorem c9_counterexample :
    jwC9.sigOk = true ∧ 10 < jwC9.exp ∧
    authenticate (some jwC9) 10 [baseUser] = AuthDecision.granted baseUser ∧
    authenticate (some jwC9) 10 [{ baseUser with accountStatus := "inactive" }]
      = AuthDecision.denied suspendedMsg 401 := by decide

/-- C9 amended: the guard grants access iff the token's signature
verifies, the token is unexpired, AND the token's user still exists with
`account_status = 'active'` — signature and expiry alone do not
determine the decision. -/
theorem c9_guard_characterization (t : Jwt) (now : Nat) (users : List User) :
    (∃ u, authenticate (some t) now users = AuthDecision.granted u) ↔
      (t.sigOk = true ∧ now < t.exp ∧
        ∃ u, users.find? (fun v => v.id == t.userId) = some u ∧
          u.accountStatus = "active") := by
  unfold authenticate
  by_cases hs : t.sigOk = true
  · by_cases he : t.exp ≤ now
    · simp [hs, he, Nat.not_lt.mpr he]
    · cases hfind : users.find? (fun v => v.id == t.userId) with
      | none => simp [hs, he, hfind]
      | some u =>
        by_cases ha : u.accountStatus = "active"
        · simp [hs, he, hfind, ha, Nat.not_le.mp he]
        · simp [hs, he, hfind, ha]
  · simp [hs]

/-- C8 fails on the code: no state machine is enforced anywhere. On an
order already `delivered`, requesting `pending` WRITES the new status
(the UPDATE persists before the handler's broken result destructuring
throws) and answers 500 — not an InvalidStateError, and the status does
not stay unchanged; and the transition the claim permits,
pending → cancelled via the cancel operation, never happens either:
`cancelOrder` throws before any check or write and answers 500. -/
theorem c8_counterexample :
    (updateOrderStatus 1 "pending" dbC8).fst
      = Outcome.err "Error updating order status" 500 ∧
    (updateOrderStatus 1 "pending" dbC8).snd.orders.map Order.status
      = ["pending"] ∧
    cancelOrder 1 7 dbPend
      = (Outcome.err "Error cancelling order" 500, dbPend) := by decide

/-- C8 amended: `updateOrderStatus` rejects a status outside the enum
with a 400 leaving the store unchanged; for any status in the enum it
unconditionally writes the requested status over whatever the current
status is, and then — its result destructuring having thrown — answers
the 500 `Error updating order status` (the success and 404 responses
are unreachable); `cancelOrder` always answers the 500
`Error cancelling order` without checking or changing anything (its row
destructuring throws on every input), so no transition rule is enforced
and no order can be cancelled through this endpoint. -/
theorem c8_transitions (id uid : Nat) (status : String) (db : OrderDB) :
    (status ∉ validStatuses →
      updateOrderStatus id status db
        = (Outcome.err "Invalid order status" 400, db)) ∧
    (status ∈ validStatuses →
      updateOrderStatus id status db
        = (Outcome.err "Error updating order status" 500,
           { db with orders := db.orders.map (fun (o : Order) =>
               if o.orderId = id then { o with status := status } else o) })) ∧
    cancelOrder id uid db = (Outcome.err "Error cancelling order" 500, db) := by
  refine ⟨?_, ?_, rfl⟩
  · intro hnot
    unfold updateOrderStatus
    rw [if_pos hnot]
  · intro hmem
    unfold updateOrderStatus
    rw [if_neg (by simp [hmem])]

/-- C7 fails on the code: `createOrder` stores the caller-supplied
`totalAmount` without ever computing or checking the item sum — here it
succeeds storing a total of 999 against a single item whose effective
price × quantity sums to 10 (discount 0, so every reading of
"effective price" agrees). -/
theorem c7_counterexample :
    (createOrder none 7 reqC7 dbC1).fst = Outcome.ok 1 ∧
    (createOrder none 7 reqC7 dbC1).snd.orders.map Order.totalAmount
      = [999] ∧
    ((createOrder none 7 reqC7 dbC1).snd.orderItems.map
        (fun oi => (oi.productPrice - oi.discountAmount) * oi.quantity)).sum
      = 10 ∧
    (999 : Int) ≠ 10 := by decide

/-- Effects of the item-insert loop when it completes: orders and cart
rows untouched, and exactly one `order_items` row per input item added
for the new order id. -/
theorem insertOrderItems_some {failAt : Option Nat} {oid : Nat}
    (its : List OrderItemReq) (k : Nat) (wc wc2 : OrderDB)
    (h : insertOrderItems failAt oid its k wc = some wc2) :
    wc2.orders = wc.orders ∧ wc2.cartItems = wc.cartItems ∧
    (wc2.orderItems.filter (fun oi => oi.orderId == oid)).length
      = (wc.orderItems.filter (fun oi => oi.orderId == oid)).length
        + its.length := by
  induction its generalizing k wc with
  | nil =>
    unfold insertOrderItems at h
    cases h
    simp
  | cons it rest ih =>
    unfold insertOrderItems at h
    split at h
    · cases h
    · obtain ⟨h1, h2, h3⟩ := ih (k + 1) _ h
      refine ⟨h1, h2, ?_⟩
      rw [h3]
      simp [List.filter_append]
      omega

/-- C7 amended: for every order produced by `createOrder`, the stored
total equals the `totalAmount` supplied by the caller (and the status is
`pending`); the coordinator performs no validation of the total against
the items, so the spec invariant holds only when the caller supplies a
consistent total. -/
theorem c7_total_caller_supplied (failAt : Option Nat) (userId : Nat)
    (req : OrderReq) (db : OrderDB) (oid : Nat) (db2 : OrderDB)
    (h : createOrder failAt userId req db = (Outcome.ok oid, db2)) :
    ∃ o ∈ db2.orders, o.orderId = oid ∧ o.totalAmount = req.totalAmount ∧
      o.status = "pending" := by
  unfold createOrder at h
  dsimp only at h
  split at h
  · simp at h
  · split at h
    · simp at h
    · rename_i wc2 hins
      split at h
      · simp at h
      · split at h
        · simp at h
        · rw [Prod.mk.injEq] at h
          obtain ⟨hoid, hdb2⟩ := h
          injection hoid with hoid
          subst hoid
          subst hdb2
          obtain ⟨h1, -, -⟩ := insertOrderItems_some _ _ _ _ hins
          refine ⟨{ orderId := db.nextOrderId, userId := userId,
                    address := req.address, phoneNumber := req.phoneNumber,
                    totalAmount := req.totalAmount, status := "pending" },
                  ?_, rfl, rfl, rfl⟩
          dsimp only
          rw [show wc2.orders = db.orders ++
              [{ orderId := db.nextOrderId, userId := userId,
                 address := req.address, phoneNumber := req.phoneNumber,
                 totalAmount := req.totalAmount, status := "pending" }]
            from h1]
          exact List.mem_append_right _ (List.mem_singleton_self _)

/-- C1: order atomicity. With a well-formed store (no existing
order-item row already carries the fresh order id) and a cart of `N`
items the request mirrors, `createOrder` either fails with the boundary
error and leaves the store exactly unchanged (rollback — whichever
statement of the transaction failed), or succeeds appending exactly one
new `pending` order row, exactly `N` order-item rows tied to the new
order id, and leaving zero cart rows for the user. -/
theorem c1_createOrder_atomic (failAt : Option Nat) (userId : Nat)
    (req : OrderReq) (db : OrderDB) (N : Nat)
    (hwf : ∀ oi ∈ db.orderItems, oi.orderId < db.nextOrderId)
    (hcart : (db.cartItems.filter (fun c => c.userId == userId)).length = N)
    (hN : req.items.length = N) :
    createOrder failAt userId req db
        = (Outcome.err "Error creating order" 500, db) ∨
    ∃ db2, createOrder failAt userId req db = (Outcome.ok db.nextOrderId, db2) ∧
      db2.orders = db.orders ++
        [{ orderId := db.nextOrderId, userId := userId,
           address := req.address, phoneNumber := req.phoneNumber,
           totalAmount := req.totalAmount, status := "pending" }] ∧
      (db2.orderItems.filter (fun oi => oi.orderId == db.nextOrderId)).length
        = N ∧
      db2.cartItems.filter (fun c => c.userId == userId) = [] := by
  unfold createOrder
  dsimp only
  split
  · exact Or.inl rfl
  · cases hins : insertOrderItems failAt db.nextOrderId req.items 1
        { db with
          orders := db.orders ++
            [{ orderId := db.nextOrderId, userId := userId,
               address := req.address, phoneNumber := req.phoneNumber,
               totalAmount := req.totalAmount, status := "pending" }],
          nextOrderId := db.nextOrderId + 1 } with
    | none => exact Or.inl rfl
    | some wc2 =>
      obtain ⟨h1, h2, h3⟩ := insertOrderItems_some _ _ _ _ hins
      dsimp only
      by_cases hd : failAt = some (req.items.length + 1)
      · rw [if_pos hd]
        exact Or.inl rfl
      · rw [if_neg hd]
        by_cases hc : failAt = some (req.items.length + 1 + 1)
        · rw [if_pos hc]
          exact Or.inl rfl
        · rw [if_neg hc]
          refine Or.inr ⟨_, rfl, ?_, ?_, ?_⟩
          · exact h1
          · rw [h3, hN]
            have hzero : (db.orderItems.filter
                (fun oi => oi.orderId == db.nextOrderId)).length = 0 := by
              simp only [List.length_eq_zero, List.filter_eq_nil_iff]
              intro oi hoi
              have := hwf oi hoi
              simp
              omega
            simpa using hzero
          · rw [h2]
            simp only [List.filter_filter]
            apply List.filter_eq_nil_iff.mpr
            intro c _
            simp

/-- Witness for C1: the success branch at a concrete store and a
one-item cart/request. -/
theorem c1_createOrder_atomic_witness :
    createOrder none 7 reqC7 dbC1
        = (Outcome.err "Error creating order" 500, dbC1) ∨
    ∃ db2, createOrder none 7 reqC7 dbC1 = (Outcome.ok dbC1.nextOrderId, db2) ∧
      db2.orders = dbC1.orders ++
        [{ orderId := dbC1.nextOrderId, userId := 7,
           address := reqC7.address, phoneNumber := reqC7.phoneNumber,
           totalAmount := reqC7.totalAmount, status := "pending" }] ∧
      (db2.orderItems.filter (fun oi => oi.orderId == dbC1.nextOrderId)).length
        = 1 ∧
      db2.cartItems.filter (fun c => c.userId == 7) = [] :=
  c1_createOrder_atomic none 7 reqC7 dbC1 1 (by decide) (by decide) (by decide)

/-- C6 fails on the code: `verifyOTP` commits the transaction before
issuing the refresh token (the code's own comment: "Generate refresh
token outside transaction"), so at this concrete input — fresh phone,
gateway approval, refresh-token insertion failing — the operation
returns an error yet the freshly created user row remains visible. -/
theorem c6_counterexample :
    (verifyOTP "approved" false true (some "+212600000002") (some "123456")
        (some "Sara") (some "sara@example.com") 0 ⟨[], [], 1, 0⟩).fst
      = Outcome.err "Internal server error" 500 ∧
    ((verifyOTP "approved" false true (some "+212600000002") (some "123456")
        (some "Sara") (some "sara@example.com") 0 ⟨[], [], 1, 0⟩).snd).users.map
        User.phone = ["+212600000002"] := by decide

/-- Reaching the registration point of `verifyOTP`: with an approved
code, a fresh phone and valid registration fields, the operation reduces
to `finishVerify` on the freshly inserted user and the transaction's
working copy. -/
theorem verifyOTP_new_user (otf orf : Bool)
    (phone code full_name email : Option String) (s : DB) (now : Nat)
    (hp : truthy phone = true) (hc : truthy code = true)
    (hf : truthy full_name = true) (he : truthy email = true)
    (hmail : emailOk (email.getD "") = true)
    (hnew : ∀ v ∈ s.users, v.phone ≠ phone.getD "") :
    verifyOTP "approved" otf orf phone code full_name email now s
      = finishVerify otf orf
          { id := s.nextUserId, uid := genUuid s.nextUuid,
            fullName := full_name.getD "", email := email.getD "",
            phone := phone.getD "", password := none, role := "user",
            accountStatus := "active", loginAttempts := 0, lastLogin := none,
            resetToken := none, resetTokenExpires := none } now s
          { s with
            users := s.users ++
              [{ id := s.nextUserId, uid := genUuid s.nextUuid,
                 fullName := full_name.getD "", email := email.getD "",
                 phone := phone.getD "", password := none, role := "user",
                 accountStatus := "active", loginAttempts := 0,
                 lastLogin := none, resetToken := none,
                 resetTokenExpires := none }],
            nextUserId := s.nextUserId + 1, nextUuid := s.nextUuid + 1 } := by
  have hfind : s.users.find? (fun u => u.phone == phone.getD "") = none := by
    rw [List.find?_eq_none]
    intro v hv
    simp [hnew v hv]
  unfold verifyOTP
  rw [if_neg (by simp [hp, hc])]
  rw [if_neg (by simp)]
  dsimp only
  rw [hfind]
  dsimp only
  rw [if_neg (by simp [hf, he])]
  rw [if_neg (by simp [hmail])]

/-- C6 amended: `verifyOTP` is atomic only up to its commit. If
access-token issuance fails (before the commit) the new user row is
rolled back and the store is exactly unchanged; but refresh-token
issuance runs after the commit, so when it fails the operation returns
the error while the freshly created user row remains visible. -/
theorem c6_verifyOTP_atomicity_up_to_commit
    (phone code full_name email : Option String) (s : DB) (now : Nat)
    (hp : truthy phone = true) (hc : truthy code = true)
    (hf : truthy full_name = true) (he : truthy email = true)
    (hmail : emailOk (email.getD "") = true)
    (hnew : ∀ v ∈ s.users, v.phone ≠ phone.getD "") :
    verifyOTP "approved" true false phone code full_name email now s
      = (Outcome.err "Internal server error" 500, s) ∧
    ((verifyOTP "approved" false true phone code full_name email now s).fst
        = Outcome.err "Internal server error" 500 ∧
      ∃ u ∈ (verifyOTP "approved" false true phone code full_name
              email now s).snd.users,
        u.phone = phone.getD "") := by
  rw [verifyOTP_new_user true false phone code full_name email s now
      hp hc hf he hmail hnew,
    verifyOTP_new_user false true phone code full_name email s now
      hp hc hf he hmail hnew]
  refine ⟨rfl, rfl, ?_⟩
  exact ⟨_, List.mem_append_right _ (List.mem_singleton_self _), rfl⟩

/-- Witness for C6 (amended) at the spec's own example scenario. -/
theorem c6_verifyOTP_atomicity_up_to_commit_witness :
    verifyOTP "approved" true false (some "+212600000002") (some "123456")
        (some "Sara") (some "sara@example.com") 0 ⟨[], [], 1, 0⟩
      = (Outcome.err "Internal server error" 500, ⟨[], [], 1, 0⟩) ∧
    ((verifyOTP "approved" false true (some "+212600000002") (some "123456")
        (some "Sara") (some "sara@example.com") 0 ⟨[], [], 1, 0⟩).fst
        = Outcome.err "Internal server error" 500 ∧
      ∃ u ∈ (verifyOTP "approved" false true (some "+212600000002")
              (some "123456") (some "Sara") (some "sara@example.com") 0
              ⟨[], [], 1, 0⟩).snd.users,
        u.phone = (some "+212600000002").getD "") :=
  c6_verifyOTP_atomicity_up_to_commit (some "+212600000002") (some "123456")
    (some "Sara") (some "sara@example.com") ⟨[], [], 1, 0⟩ 0
    (by decide) (by decide) (by decide) (by decide) (by decide)
    (by simp)

/-- The Firebase branch of `login` never consults the password
comparator: its outcome is identical for any two comparators. -/
theorem login_firebase_bc_free (bc b2 : String → Option String → Bool)
    (body : LoginReq) (now : Nat) (s : DB)
    (h : (truthy body.firebase_uid && truthy body.phone_number) = true) :
    login bc body now s = login b2 body now s := by
  unfold login
  rw [if_pos h, if_pos h]

/-- Success of the Firebase branch of `login` for an active user found
by phone: some payload is returned for that user together with a fresh
refresh token. -/
theorem login_firebase_ok (bc : String → Option String → Bool)
    (fuid : String) (pwField : Option String) (now : Nat) (s : DB)
    (u : User)
    (hfu : fuid ≠ "") (hp : u.phone ≠ "")
    (hfind : s.users.find? (fun v => v.phone == u.phone) = some u)
    (hact : u.accountStatus = "active") :
    ∃ d : LoginData,
      (login bc { firebase_uid := some fuid, phone_number := some u.phone,
                  password := pwField } now s).fst = Outcome.ok d ∧
      d.user.id = u.id ∧ d.token.userId = u.id ∧
      d.refreshToken = some (genUuid s.nextUuid) := by
  unfold login
  rw [if_pos (by simp [truthy, hfu, hp])]
  dsimp only
  simp only [Option.getD_some]
  rw [hfind]
  dsimp only
  rw [if_neg (by simp [hact])]
  by_cases hU : (u.uid == "" || u.uid != fuid) = true
  · simp only [hU, if_true]
    exact ⟨_, rfl, rfl, rfl, rfl⟩
  · simp only [hU, if_false, Bool.false_eq_true]
    exact ⟨_, rfl, rfl, rfl, rfl⟩

/-- C10 fails as stated for the empty string: JavaScript truthiness
makes `firebase_uid = ""` skip the Firebase branch, so this request —
which does contain `firebase_uid` together with the active user's phone
— falls through to the password branch and fails with a 400 instead of
succeeding. -/
theorem c10_counterexample :
    (login bcryptCheck
        { firebase_uid := some "", phone_number := some baseUser.phone,
          password := none } 10 ⟨[baseUser], [], 2, 0⟩).fst
      = Outcome.err "Phone number and password are required" 400 := by decide

/-- C10 amended: for every active user and every NON-EMPTY string `s`, a
login request carrying `firebase_uid = s` and the user's phone succeeds
with an access and refresh token for that user, and the outcome is
independent of the password comparator (no password comparison is
performed; the embedded `login` takes no OTP gateway at all, so no OTP
check can occur). -/
theorem c10_firebase_login (bc b2 : String → Option String → Bool)
    (u : User) (ts : List RefreshRow) (nid nuid now : Nat) (fuid : String)
    (pwField : Option String)
    (hfu : fuid ≠ "") (hp : u.phone ≠ "") (hact : u.accountStatus = "active") :
    (∃ d : LoginData,
      (login bc { firebase_uid := some fuid, phone_number := some u.phone,
                  password := pwField } now ⟨[u], ts, nid, nuid⟩).fst
        = Outcome.ok d ∧
      d.user.id = u.id ∧ d.token.userId = u.id ∧
      d.refreshToken = some (genUuid nuid)) ∧
    login bc { firebase_uid := some fuid, phone_number := some u.phone,
               password := pwField } now ⟨[u], ts, nid, nuid⟩
      = login b2 { firebase_uid := some fuid, phone_number := some u.phone,
                   password := pwField } now ⟨[u], ts, nid, nuid⟩ := by
  constructor
  · exact login_firebase_ok bc fuid pwField now ⟨[u], ts, nid, nuid⟩ u hfu hp
      (List.find?_cons_of_pos _ (by simp)) hact
  · exact login_firebase_bc_free bc b2 _ now _ (by simp [truthy, hfu, hp])

/-- Witness for C10 (amended) at a concrete user and two distinct
comparators. -/
theorem c10_firebase_login_witness :
    (∃ d : LoginData,
      (login bcryptCheck
          { firebase_uid := some "fbX", phone_number := some baseUser.phone,
            password := none } 10 ⟨[baseUser], [], 2, 0⟩).fst
        = Outcome.ok d ∧
      d.user.id = baseUser.id ∧ d.token.userId = baseUser.id ∧
      d.refreshToken = some (genUuid 0)) ∧
    login bcryptCheck
        { firebase_uid := some "fbX", phone_number := some baseUser.phone,
          password := none } 10 ⟨[baseUser], [], 2, 0⟩
      = login (fun _ _ => true)
          { firebase_uid := some "fbX", phone_number := some baseUser.phone,
            password := none } 10 ⟨[baseUser], [], 2, 0⟩ :=
  c10_firebase_login bcryptCheck (fun _ _ => true) baseUser [] 2 0 10 "fbX"
    none (by decide) (by decide) (by decide)

/-- C5 fails as stated: a request supplying exactly the fields the claim
names — full_name, email, phone and a password — against a store where
the email and phone are unused is rejected with the ValidationError
`All fields are required` and creates nothing, because the code requires
a `uid` and does not accept a password at all. -/
theorem c5_register_counterexample :
    register { full_name := some "Ali", email := some "ali@x.com",
               phone_number := some "+212600000009", uid := none,
               password := some "secret123" } 0 ⟨[], [], 1, 0⟩
      = (Outcome.err "All fields are required" 400, ⟨[], [], 1, 0⟩) := by
  decide


/-- C5 amended: `register(full_name, email, phone_number, uid)` fails
with ValidationError when any of those four fields is missing; fails
with ConflictError when the email or phone is already used; otherwise
creates an active `user`-role user with NO password (so no password hash
can be returned — the response's user view carries no password field),
and a subsequent Firebase-style login with that uid and phone succeeds.
A password-based login cannot succeed because no password is stored. -/
theorem c5_register_amended (body : RegisterReq) (s : DB) (now now2 : Nat) :
    ((truthy body.full_name && truthy body.email && truthy body.phone_number
        && truthy body.uid) = false →
      register body now s = (Outcome.err "All fields are required" 400, s)) ∧
    ((truthy body.full_name && truthy body.email && truthy body.phone_number
        && truthy body.uid) = true →
      (s.users.filter (fun u => u.email == body.email.getD ""
          || u.phone == body.phone_number.getD "") ≠ [] →
        register body now s = (Outcome.err
          "User with this email or phone number already exists" 409, s)) ∧
      (s.users.filter (fun u => u.email == body.email.getD ""
          || u.phone == body.phone_number.getD "") = [] →
        register body now s
          = (Outcome.ok
              { user := userView (registeredUser body s),
                token := generateToken (registeredUser body s) now,
                refreshToken := some (genUuid s.nextUuid) },
             registeredState body s now) ∧
        (registeredUser body s).password = none ∧
        (registeredUser body s).accountStatus = "active" ∧
        (registeredUser body s).role = "user" ∧
        registeredUser body s ∈ (registeredState body s now).users ∧
        ∃ d : LoginData,
          (login bcryptCheck
            { firebase_uid := body.uid,
              phone_number := body.phone_number, password := none } now2
            (registeredState body s now)).fst = Outcome.ok d ∧
          d.user.id = s.nextUserId)) := by
  refine ⟨?_, ?_⟩
  · intro hmiss
    unfold register
    rw [if_pos (by simp [hmiss])]
  · intro htru
    have h1 := htru
    simp only [Bool.and_eq_true] at h1
    obtain ⟨⟨⟨hfn, hem⟩, hph⟩, hui⟩ := h1
    constructor
    · intro hconf
      unfold register
      rw [if_neg (by simp [htru]), if_pos hconf]
    · intro hfree
      have hreg : register body now s
          = (Outcome.ok
              { user := userView (registeredUser body s),
                token := generateToken (registeredUser body s) now,
                refreshToken := some (genUuid s.nextUuid) },
             registeredState body s now) := by
        unfold register
        rw [if_neg (by simp [htru])]
        dsimp only
        rw [if_neg (by simp [hfree])]
        rfl
      refine ⟨hreg, rfl, rfl, rfl,
        List.mem_append_right _ (List.mem_singleton_self _), ?_⟩
      cases hbu : body.uid with
      | none => rw [hbu] at hui; simp [truthy] at hui
      | some fuid =>
        cases hbp : body.phone_number with
        | none => rw [hbp] at hph; simp [truthy] at hph
        | some ph =>
          have hui2 : fuid ≠ "" := by
            rw [hbu] at hui
            simpa [truthy] using hui
          have hph2 : (registeredUser body s).phone ≠ "" := by
            show body.phone_number.getD "" ≠ ""
            rw [hbp]
            rw [hbp] at hph
            simpa [truthy] using hph
          have hnone : s.users.find?
              (fun v => v.phone == (registeredUser body s).phone) = none := by
            rw [List.find?_eq_none]
            intro v hv
            have := List.filter_eq_nil_iff.mp hfree v hv
            simp only [Bool.or_eq_true, not_or] at this
            simpa [registeredUser] using this.2
          have hfind : (registeredState body s now).users.find?
              (fun v => v.phone == (registeredUser body s).phone)
              = some (registeredUser body s) := by
            show (s.users ++ [registeredUser body s]).find? _ = _
            rw [find?_append_of_none hnone,
              List.find?_cons_of_pos _ (by simp)]
          obtain ⟨d, hd1, hd2, -, -⟩ := login_firebase_ok bcryptCheck
            fuid none now2 (registeredState body s now)
            (registeredUser body s) hui2 hph2 hfind rfl
          have hconv : (some (registeredUser body s).phone : Option String)
              = some ph := by
            show (some (body.phone_number.getD "") : Option String) = some ph
            rw [hbp]
            rfl
          rw [hconv] at hd1
          exact ⟨d, hd1, hd2⟩

/-- Witness for C5 (amended) at a concrete body and the empty store. -/
theorem c5_register_amended_witness :
    register bodyC5 0 sEmpty
      = (Outcome.ok
          { user := userView (registeredUser bodyC5 sEmpty),
            token := generateToken (registeredUser bodyC5 sEmpty) 0,
            refreshToken := some (genUuid sEmpty.nextUuid) },
         registeredState bodyC5 sEmpty 0) ∧
    (registeredUser bodyC5 sEmpty).password = none ∧
    (registeredUser bodyC5 sEmpty).accountStatus = "active" ∧
    (registeredUser bodyC5 sEmpty).role = "user" ∧
    registeredUser bodyC5 sEmpty ∈ (registeredState bodyC5 sEmpty 0).users ∧
    ∃ d : LoginData,
      (login bcryptCheck
        { firebase_uid := bodyC5.uid, phone_number := bodyC5.phone_number,
          password := none } 5
        (registeredState bodyC5 sEmpty 0)).fst = Outcome.ok d ∧
      d.user.id = sEmpty.nextUserId :=
  ((c5_register_amended bodyC5 sEmpty 0 5).2 (by decide)).2 (by decide)

/-- One wrong-password login attempt against a single-user store: the
stored counter is incremented; below the threshold the generic
AuthError `Invalid credentials` is returned, and when the stored count
has reached 4 (so this is the fifth consecutive failure) the account is
switched to `inactive` and the distinguished lockout error returned. -/
theorem login_wrong_pw (u : User) (ts : List RefreshRow)
    (nid nuid now : Nat) (pw wp : String)
    (hp : u.phone ≠ "") (hact : u.accountStatus = "active")
    (hpw : u.password = some (bcryptHash pw)) (hwp : wp ≠ "")
    (hne : wp ≠ pw) :
    login bcryptCheck (loginPwBody u.phone wp) now ⟨[u], ts, nid, nuid⟩
      = (if u.loginAttempts ≥ 4 then Outcome.err lockedMsg 401
         else Outcome.err "Invalid credentials" 401,
         ⟨[if u.loginAttempts ≥ 4 then
             { u with loginAttempts := u.loginAttempts + 1,
                      accountStatus := "inactive" }
           else { u with loginAttempts := u.loginAttempts + 1 }],
          ts, nid, nuid⟩) := by
  have hbc : bcryptCheck wp u.password = false := by
    rw [hpw]
    rw [show (bcryptCheck wp (some (bcryptHash pw)))
        = (some (bcryptHash pw) == some (bcryptHash wp)) from rfl]
    rw [beq_eq_false_iff_ne]
    intro hcontra
    injection hcontra with hcontra
    exact hne (bcryptHash_inj hcontra).symm
  unfold login
  rw [if_neg (by simp [loginPwBody, truthy])]
  rw [if_neg (by simp [loginPwBody, truthy, hp, hwp])]
  dsimp only [loginPwBody]
  simp only [Option.getD_some]
  rw [List.find?_cons_of_pos _ (by simp)]
  dsimp only
  rw [if_neg (by simp [hact])]
  simp only [hbc, Bool.false_eq_true, if_false]
  by_cases h4 : u.loginAttempts ≥ 4
  · simp [h4]
  · simp [h4]

/-- A password login against a single-user store whose user is not
active fails with the distinguished suspended/deactivated 401 before
any password comparison. -/
theorem login_pw_inactive (u : User) (ts : List RefreshRow)
    (nid nuid now : Nat) (pw : String)
    (hp : u.phone ≠ "") (hpw0 : pw ≠ "")
    (hinact : u.accountStatus ≠ "active") :
    (login bcryptCheck (loginPwBody u.phone pw) now ⟨[u], ts, nid, nuid⟩).fst
      = Outcome.err suspendedMsg 401 := by
  unfold login
  rw [if_neg (by simp [loginPwBody, truthy])]
  rw [if_neg (by simp [loginPwBody, truthy, hp, hpw0])]
  dsimp only [loginPwBody]
  simp only [Option.getD_some]
  rw [List.find?_cons_of_pos _ (by simp)]
  dsimp only
  rw [if_pos hinact]

/-- C4: lockout. Starting from an active single-user store with a zero
failure counter: each wrong-password attempt fails with the AuthError
`Invalid credentials` and increments the stored counter (attempts 1-4);
the fifth consecutive wrong-password attempt transitions the account to
`inactive` (locked) and returns the distinguished lockout 401; a sixth
attempt with the CORRECT password then fails with the distinguished
suspended/deactivated 401 (the taxonomy's AccountLockedError), not with
the AuthError message. -/
theorem c4_lockout (u : User) (ts : List RefreshRow) (nid nuid now : Nat)
    (pw wp : String)
    (hp : u.phone ≠ "") (hact : u.accountStatus = "active")
    (hatt : u.loginAttempts = 0)
    (hpw : u.password = some (bcryptHash pw))
    (hpw0 : pw ≠ "") (hwp : wp ≠ "") (hne : wp ≠ pw) :
    ((login bcryptCheck (loginPwBody u.phone wp) now
        ⟨[u], ts, nid, nuid⟩).fst = Outcome.err "Invalid credentials" 401) ∧
    (iterateLogin (loginPwBody u.phone wp) now 1 ⟨[u], ts, nid, nuid⟩
      = ⟨[{ u with loginAttempts := 1 }], ts, nid, nuid⟩) ∧
    ((login bcryptCheck (loginPwBody u.phone wp) now
        (iterateLogin (loginPwBody u.phone wp) now 1 ⟨[u], ts, nid, nuid⟩)).fst
      = Outcome.err "Invalid credentials" 401) ∧
    (iterateLogin (loginPwBody u.phone wp) now 2 ⟨[u], ts, nid, nuid⟩
      = ⟨[{ u with loginAttempts := 2 }], ts, nid, nuid⟩) ∧
    ((login bcryptCheck (loginPwBody u.phone wp) now
        (iterateLogin (loginPwBody u.phone wp) now 2 ⟨[u], ts, nid, nuid⟩)).fst
      = Outcome.err "Invalid credentials" 401) ∧
    (iterateLogin (loginPwBody u.phone wp) now 3 ⟨[u], ts, nid, nuid⟩
      = ⟨[{ u with loginAttempts := 3 }], ts, nid, nuid⟩) ∧
    ((login bcryptCheck (loginPwBody u.phone wp) now
        (iterateLogin (loginPwBody u.phone wp) now 3 ⟨[u], ts, nid, nuid⟩)).fst
      = Outcome.err "Invalid credentials" 401) ∧
    (iterateLogin (loginPwBody u.phone wp) now 4 ⟨[u], ts, nid, nuid⟩
      = ⟨[{ u with loginAttempts := 4 }], ts, nid, nuid⟩) ∧
    ((login bcryptCheck (loginPwBody u.phone wp) now
        (iterateLogin (loginPwBody u.phone wp) now 4 ⟨[u], ts, nid, nuid⟩)).fst
      = Outcome.err lockedMsg 401) ∧
    (iterateLogin (loginPwBody u.phone wp) now 5 ⟨[u], ts, nid, nuid⟩
      = ⟨[{ u with loginAttempts := 5, accountStatus := "inactive" }],
         ts, nid, nuid⟩) ∧
    ((login bcryptCheck (loginPwBody u.phone pw) now
        (iterateLogin (loginPwBody u.phone wp) now 5 ⟨[u], ts, nid, nuid⟩)).fst
      = Outcome.err suspendedMsg 401) ∧
    suspendedMsg ≠ "Invalid credentials" ∧
    lockedMsg ≠ "Invalid credentials" := by
  have e1 := login_wrong_pw u ts nid nuid now pw wp hp hact hpw hwp hne
  rw [hatt] at e1
  norm_num at e1
  have e2 := login_wrong_pw { u with loginAttempts := 1 } ts nid nuid now
    pw wp hp hact hpw hwp hne
  dsimp only at e2
  norm_num at e2
  have e3 := login_wrong_pw { u with loginAttempts := 2 } ts nid nuid now
    pw wp hp hact hpw hwp hne
  dsimp only at e3
  norm_num at e3
  have e4 := login_wrong_pw { u with loginAttempts := 3 } ts nid nuid now
    pw wp hp hact hpw hwp hne
  dsimp only at e4
  norm_num at e4
  have e5 := login_wrong_pw { u with loginAttempts := 4 } ts nid nuid now
    pw wp hp hact hpw hwp hne
  dsimp only at e5
  norm_num at e5
  have i1 : iterateLogin (loginPwBody u.phone wp) now 1 ⟨[u], ts, nid, nuid⟩
      = ⟨[{ u with loginAttempts := 1 }], ts, nid, nuid⟩ := by
    show (login bcryptCheck (loginPwBody u.phone wp) now
        (iterateLogin (loginPwBody u.phone wp) now 0 ⟨[u], ts, nid, nuid⟩)).snd
      = _
    dsimp only [iterateLogin]
    rw [e1]
  have i2 : iterateLogin (loginPwBody u.phone wp) now 2 ⟨[u], ts, nid, nuid⟩
      = ⟨[{ u with loginAttempts := 2 }], ts, nid, nuid⟩ := by
    show (login bcryptCheck (loginPwBody u.phone wp) now
        (iterateLogin (loginPwBody u.phone wp) now 1 ⟨[u], ts, nid, nuid⟩)).snd
      = _
    rw [i1, e2]
  have i3 : iterateLogin (loginPwBody u.phone wp) now 3 ⟨[u], ts, nid, nuid⟩
      = ⟨[{ u with loginAttempts := 3 }], ts, nid, nuid⟩ := by
    show (login bcryptCheck (loginPwBody u.phone wp) now
        (iterateLogin (loginPwBody u.phone wp) now 2 ⟨[u], ts, nid, nuid⟩)).snd
      = _
    rw [i2, e3]
  have i4 : iterateLogin (loginPwBody u.phone wp) now 4 ⟨[u], ts, nid, nuid⟩
      = ⟨[{ u with loginAttempts := 4 }], ts, nid, nuid⟩ := by
    show (login bcryptCheck (loginPwBody u.phone wp) now
        (iterateLogin (loginPwBody u.phone wp) now 3 ⟨[u], ts, nid, nuid⟩)).snd
      = _
    rw [i3, e4]
  have i5 : iterateLogin (loginPwBody u.phone wp) now 5 ⟨[u], ts, nid, nuid⟩
      = ⟨[{ u with loginAttempts := 5, accountStatus := "inactive" }],
         ts, nid, nuid⟩ := by
    show (login bcryptCheck (loginPwBody u.phone wp) now
        (iterateLogin (loginPwBody u.phone wp) now 4 ⟨[u], ts, nid, nuid⟩)).snd
      = _
    rw [i4, e5]
  have e6 : (login bcryptCheck (loginPwBody u.phone pw) now
      ⟨[{ u with loginAttempts := 5, accountStatus := "inactive" }],
       ts, nid, nuid⟩).fst = Outcome.err suspendedMsg 401 :=
    login_pw_inactive
      { u with loginAttempts := 5, accountStatus := "inactive" }
      ts nid nuid now pw hp hpw0 (by dsimp only; decide)
  refine ⟨by rw [e1], i1, by rw [i1, e2], i2, by rw [i2, e3], i3,
    by rw [i3, e4], i4, by rw [i4, e5], i5, by rw [i5]; exact e6,
    by decide, by decide⟩

/-- Witness for C4 at a concrete user, wrong password `bad` and correct
password `goodpass`. -/
theorem c4_lockout_witness :
    ((login bcryptCheck (loginPwBody uC4.phone "bad") 10
        ⟨[uC4], [], 2, 0⟩).fst = Outcome.err "Invalid credentials" 401) ∧
    (iterateLogin (loginPwBody uC4.phone "bad") 10 1 ⟨[uC4], [], 2, 0⟩
      = ⟨[{ uC4 with loginAttempts := 1 }], [], 2, 0⟩) ∧
    ((login bcryptCheck (loginPwBody uC4.phone "bad") 10
        (iterateLogin (loginPwBody uC4.phone "bad") 10 1
          ⟨[uC4], [], 2, 0⟩)).fst
      = Outcome.err "Invalid credentials" 401) ∧
    (iterateLogin (loginPwBody uC4.phone "bad") 10 2 ⟨[uC4], [], 2, 0⟩
      = ⟨[{ uC4 with loginAttempts := 2 }], [], 2, 0⟩) ∧
    ((login bcryptCheck (loginPwBody uC4.phone "bad") 10
        (iterateLogin (loginPwBody uC4.phone "bad") 10 2
          ⟨[uC4], [], 2, 0⟩)).fst
      = Outcome.err "Invalid credentials" 401) ∧
    (iterateLogin (loginPwBody uC4.phone "bad") 10 3 ⟨[uC4], [], 2, 0⟩
      = ⟨[{ uC4 with loginAttempts := 3 }], [], 2, 0⟩) ∧
    ((login bcryptCheck (loginPwBody uC4.phone "bad") 10
        (iterateLogin (loginPwBody uC4.phone "bad") 10 3
          ⟨[uC4], [], 2, 0⟩)).fst
      = Outcome.err "Invalid credentials" 401) ∧
    (iterateLogin (loginPwBody uC4.phone "bad") 10 4 ⟨[uC4], [], 2, 0⟩
      = ⟨[{ uC4 with loginAttempts := 4 }], [], 2, 0⟩) ∧
    ((login bcryptCheck (loginPwBody uC4.phone "bad") 10
        (iterateLogin (loginPwBody uC4.phone "bad") 10 4
          ⟨[uC4], [], 2, 0⟩)).fst
      = Outcome.err lockedMsg 401) ∧
    (iterateLogin (loginPwBody uC4.phone "bad") 10 5 ⟨[uC4], [], 2, 0⟩
      = ⟨[{ uC4 with loginAttempts := 5, accountStatus := "inactive" }],
         [], 2, 0⟩) ∧
    ((login bcryptCheck (loginPwBody uC4.phone "goodpass") 10
        (iterateLogin (loginPwBody uC4.phone "bad") 10 5
          ⟨[uC4], [], 2, 0⟩)).fst
      = Outcome.err suspendedMsg 401) ∧
    suspendedMsg ≠ "Invalid credentials" ∧
    lockedMsg ≠ "Invalid credentials" :=
  c4_lockout uC4 [] 2 0 10 "goodpass" "bad" (by decide) rfl rfl rfl
    (by decide) (by decide) (by decide)

/-- Witness for C7 (amended): the stored total at a concrete successful
order equals the caller-supplied 999. -/
theorem c7_total_caller_supplied_witness :
    ∃ o ∈ (createOrder none 7 reqC7 dbC1).snd.orders, o.orderId = 1 ∧
      o.totalAmount = reqC7.totalAmount ∧ o.status = "pending" :=
  c7_total_caller_supplied none 7 reqC7 dbC1 1
    (createOrder none 7 reqC7 dbC1).snd rfl

/-- Witness for C8 (amended) at concrete stores: unknown status
rejected with the 400; enum status written over a pending order with
the 500 answer; cancel attempt answering the 500 with the store
unchanged. -/
theorem c8_transitions_witness :
    (updateOrderStatus 1 "bogus" dbPend
      = (Outcome.err "Invalid order status" 400, dbPend)) ∧
    (updateOrderStatus 1 "shipped" dbPend
      = (Outcome.err "Error updating order status" 500,
         { dbPend with orders := dbPend.orders.map (fun (o : Order) =>
             if o.orderId = 1 then { o with status := "shipped" } else o) })) ∧
    cancelOrder 1 7 dbPend
      = (Outcome.err "Error cancelling order" 500, dbPend) :=
  ⟨(c8_transitions 1 7 "bogus" dbPend).1 (by decide),
   (c8_transitions 1 7 "shipped" dbPend).2.1 (by decide),
   (c8_transitions 1 7 "shipped" dbPend).2.2⟩
